import Mathlib

/-!
Shallow embedding of `src/main.py` (pyVmomi VM-lifecycle scripts) for checking
the specification claims about the task-completion polling idiom and the
inventory/power/snapshot/event helpers.

Conventions of the embedding:
* Every evaluation of `task.info.state` (or `task.info.error.msg`) in the
  Python source performs one round trip to the platform; it is modelled as
  consuming one `PollResult` from a list of observations supplied by the
  environment.  An observation is either the task state the fetch returned or
  an exception the fetch raised (`PollResult.exn`).
* The vSphere task states `queued` and `running` are collapsed into
  `TaskState.pending` (the source only tests membership in
  `[success, error]`, so all non-terminal states behave identically).
* A `TaskState.error` observation carries the string that
  `task.info.error.msg` would return on that same fetch.
-/

set_option autoImplicit false

namespace VmwarePyvmomi

/-- The observable state of a platform task.  `pending` stands for every
non-terminal vSphere state (`queued`, `running`); `error` carries the
platform-supplied message `task.info.error.msg`. -/
inductive TaskState where
  | pending
  | success
  | error (msg : String)
deriving DecidableEq

/-- The result of one evaluation of `task.info.state`: either the fetched
state, or an exception raised by the fetch itself (a transport error). -/
inductive PollResult where
  | state (s : TaskState)
  | exn (e : String)
deriving DecidableEq

/-- What the polling idiom of `src/main.py` produces once it finishes:
`ok` for the success branch, `failed msg` for the platform-reported failure
branch (line 150 of `create_vm` and its clones), `transport e` for an
exception escaping the polling code.  Note there is no timeout variant:
the source has none. -/
inductive WaitOutcome where
  | ok
  | failed (msg : String)
  | transport (e : String)
deriving DecidableEq

/-- Events performed by the polling idiom, in execution order.  `poll` is one
round trip reading `task.info`; `sleep` would be a suspension between polls.
The loop body in the source (line 145) is a bare `continue`, so no code path
ever emits `sleep`; the constructor exists so that the sleeping policy of
spec section 5 can be stated about the embedding. -/
inductive WaitEvent where
  | poll (r : PollResult)
  | sleep
deriving DecidableEq

/-- Message of the `AttributeError` Python raises when line 150 evaluates
`task.info.error.msg` while the freshly fetched `task.info.error` is `None`
(i.e. the fetched state is not an error state). -/
def attrErrorMsg : String := "AttributeError: NoneType object has no attribute msg"

/-- Embeds line 150 (`create_vm`; same statement at 240, 263, 296, 418):
the evaluation of `task.info.error.msg` in the failure branch.  One more
fetch of `task.info`; if the fetched state is not an error state the
attribute access raises. -/
def readErrorMsg : List PollResult → Option WaitOutcome × List WaitEvent
  | [] => (none, [])
  | .exn e :: _ => (some (.transport e), [.poll (.exn e)])
  | .state (.error m) :: _ => (some (.failed m), [.poll (.state (.error m))])
  | .state s :: _ => (some (.transport attrErrorMsg), [.poll (.state s)])

/-- Embeds lines 147-150 (`create_vm`; same statement at 237-240, 260-263,
293-296, 415-418): `if task.info.state == vim.TaskInfo.State.success`.
One more fetch of `task.info` after the loop has exited. -/
def checkSuccess : List PollResult → Option WaitOutcome × List WaitEvent
  | [] => (none, [])
  | .exn e :: _ => (some (.transport e), [.poll (.exn e)])
  | .state s :: rest =>
    if s = .success then (some .ok, [.poll (.state s)])
    else ((readErrorMsg rest).1, .poll (.state s) :: (readErrorMsg rest).2)

/-- Embeds the task-completion wait of `src/main.py`, lines 144-151
(`create_vm`), duplicated at 235-241 (`take_snapshot`), 258-264
(`revert_to_snapshot`), 291-297 (`clone_vm_from_snapshot`), 412-418
(`clone_vm_from_template`) and 544-546 (`demo_snapshot`):

    while task.info.state not in [success, error]:
        continue
    if task.info.state == success: ... else: ... task.info.error.msg ...

Each list element is one fetch of `task.info`.  Result `(none, evs)` means
the observation list was exhausted while the loop was still spinning (the
unbounded busy-wait outran the supplied trace, i.e. the call has not
returned); otherwise `(some outcome, evs)` with `evs` the polls performed. -/
def waitForTask : List PollResult → Option WaitOutcome × List WaitEvent
  | [] => (none, [])
  | .exn e :: _ => (some (.transport e), [.poll (.exn e)])
  | .state s :: rest =>
    if s = .pending then ((waitForTask rest).1, .poll (.state s) :: (waitForTask rest).2)
    else ((checkSuccess rest).1, .poll (.state s) :: (checkSuccess rest).2)

/-- Recognises a poll event. -/
def WaitEvent.isPoll : WaitEvent → Bool
  | .poll _ => true
  | .sleep => false

/-- Recognises a sleep event. -/
def WaitEvent.isSleep : WaitEvent → Bool
  | .poll _ => false
  | .sleep => true

/-- Number of platform polls (fetches of `task.info`) in an event trace. -/
def pollCount (evs : List WaitEvent) : Nat := evs.countP WaitEvent.isPoll

/-- Number of sleeps in an event trace. -/
def sleepCount (evs : List WaitEvent) : Nat := evs.countP WaitEvent.isSleep

/-- A task state is terminal when the source loop condition
`state not in [success, error]` is false. -/
def isTerminal : TaskState → Bool
  | .pending => false
  | .success => true
  | .error _ => true

/-- Modelled from the spec: the platform-side task lifecycle (which lives in
the external vSphere platform, not in `src/`).  Spec section 3: `Pending` is
the initial state and may move anywhere; `Succeeded` and `Failed` are
terminal, and "once a task reaches a terminal state it never changes again".
`taskStepOk s t` says the state may be `t` one observation after it was `s`. -/
def taskStepOk : TaskState → TaskState → Bool
  | .pending, _ => true
  | .success, t => decide (t = .success)
  | .error m, t => decide (t = .error m)

/-- A state trajectory of one task (the value `query_state` reports at each
successive observation) that respects the platform transition model. -/
def ValidTrajectory (traj : Nat → TaskState) : Prop :=
  ∀ i, taskStepOk (traj i) (traj (i + 1)) = true

/-- `vm.runtime.powerState` values (`vim.VirtualMachinePowerState`). -/
inductive VmPowerState where
  | poweredOn
  | poweredOff
  | suspended
deriving DecidableEq

/-- The `PowerAction` enum of `src/main.py`, lines 6-12. -/
inductive PowerAction where
  | POWER_ON
  | POWER_OFF
  | REBOOT
deriving DecidableEq

/-- The mutating platform calls the embedded functions can issue. -/
inductive PlatformCall where
  | powerOn (vmName : String)
  | powerOff (vmName : String)
  | createSnapshot (vmName snapName : String)
  | createVM (vmName : String)
deriving DecidableEq

instance : DecidableEq (Except String (List PollResult)) := fun x y =>
  match x, y with
  | .error a, .error b =>
    if h : a = b then isTrue (by rw [h]) else isFalse (by simp [h])
  | .ok a, .ok b =>
    if h : a = b then isTrue (by rw [h]) else isFalse (by simp [h])
  | .error _, .ok _ => isFalse (by simp)
  | .ok _, .error _ => isFalse (by simp)

/-- One virtual machine of the inventory, together with the behaviour the
platform exhibits when the script operates on it: `powerOnRaises e` means
`vm.PowerOn()` raises exception `e` (`none` = the call returns a task),
likewise `powerOffRaises`; `createSnapshotResult` is either an exception
raised by `vm.CreateSnapshot_Task(...)` or the observation trace of the
returned snapshot task. -/
structure VM where
  name : String
  powerState : VmPowerState
  powerOnRaises : Option String := none
  powerOffRaises : Option String := none
  createSnapshotResult : Except String (List PollResult) := .ok [.state .success, .state .success]
deriving DecidableEq

/-- Observable result of one embedded script function: the lines it printed,
the mutating platform calls it issued (in order), and its Python return
value.  `retval = none` models Python returning `None`; `some ()` models
returning the task object. -/
structure OpResult where
  printed : List String
  calls : List PlatformCall
  retval : Option Unit
deriving DecidableEq

/-- The `for vm in containerView.view: if vm.name == vm_name:` scan that
opens `control_vm_power` (lines 191-192), `take_snapshot` (225-226),
`delete_vm` (172-173): first inventory entry with the requested name. -/
def findVM (inv : List VM) (vm_name : String) : Option VM :=
  inv.find? fun vm => vm.name == vm_name

/-- Embeds `vm_exists` (lines 91-108): true iff some inventory VM has the
given name. -/
def vm_exists (inv : List VM) (vm_name : String) : Bool :=
  inv.any fun vm => vm.name == vm_name

/-- Embeds `control_vm_power` (lines 180-219).  The Python function returns
`None` on every path; differences between paths are only in `printed` and in
the platform calls issued.  The dead `else` printing an unknown action is
unreachable with the three-constructor enum and is dropped. -/
def control_vm_power (inv : List VM) (vm_name : String) (action : PowerAction) : OpResult :=
  match findVM inv vm_name with
  | none => { printed := [s!"VM {vm_name} not found."], calls := [], retval := none }
  | some vm =>
    match action with
    | .POWER_ON =>
      if vm.powerState ≠ .poweredOn then
        match vm.powerOnRaises with
        | none =>
          { printed := [s!"Powering ON VM: {vm_name}"]
            calls := [.powerOn vm.name], retval := none }
        | some e =>
          { printed := [s!"Powering ON VM: {vm_name}", s!"Failed to power_on VM {vm_name}: {e}"]
            calls := [.powerOn vm.name], retval := none }
      else
        { printed := [s!"VM {vm_name} is already powered on."], calls := [], retval := none }
    | .POWER_OFF =>
      if vm.powerState ≠ .poweredOff then
        match vm.powerOffRaises with
        | none =>
          { printed := [s!"Powering OFF VM: {vm_name}"]
            calls := [.powerOff vm.name], retval := none }
        | some e =>
          { printed := [s!"Powering OFF VM: {vm_name}", s!"Failed to power_off VM {vm_name}: {e}"]
            calls := [.powerOff vm.name], retval := none }
      else
        { printed := [s!"VM {vm_name} is already powered off."], calls := [], retval := none }
    | .REBOOT =>
      if vm.powerState = .poweredOn then
        match vm.powerOffRaises with
        | some e =>
          { printed := [s!"Rebooting VM: {vm_name}", s!"Failed to reboot VM {vm_name}: {e}"]
            calls := [.powerOff vm.name], retval := none }
        | none =>
          match vm.powerOnRaises with
          | some e =>
            { printed := [s!"Rebooting VM: {vm_name}", s!"Failed to reboot VM {vm_name}: {e}"]
              calls := [.powerOff vm.name, .powerOn vm.name], retval := none }
          | none =>
            { printed := [s!"Rebooting VM: {vm_name}"]
              calls := [.powerOff vm.name, .powerOn vm.name], retval := none }
      else
        { printed := [s!"Cannot reboot. VM {vm_name} is not powered on."], calls := [], retval := none }

/-- Embeds `take_snapshot` (lines 221-245).  Returns `none` when the
busy-wait at lines 235-236 outruns the supplied observation trace (the call
never returns); otherwise the printed lines, the issued calls, and the
Python return value, which is `None` on every path. -/
def take_snapshot (inv : List VM) (vm_name : String) (snapshot_name : String) :
    Option OpResult :=
  match findVM inv vm_name with
  | none => some { printed := [s!"VM {vm_name} not found."], calls := [], retval := none }
  | some vm =>
    match vm.createSnapshotResult with
    | .error e =>
      some { printed := [s!"Taking snapshot of VM: {vm_name}", s!"Failed to take snapshot: {e}"]
             calls := [.createSnapshot vm.name snapshot_name], retval := none }
    | .ok trace =>
      match waitForTask trace with
      | (none, _) => none
      | (some .ok, _) =>
        some { printed := [s!"Taking snapshot of VM: {vm_name}",
                           s!"Snapshot {snapshot_name} created successfully."]
               calls := [.createSnapshot vm.name snapshot_name], retval := none }
      | (some (.failed m), _) =>
        some { printed := [s!"Taking snapshot of VM: {vm_name}", s!"Snapshot creation failed: {m}"]
               calls := [.createSnapshot vm.name snapshot_name], retval := none }
      | (some (.transport e), _) =>
        some { printed := [s!"Taking snapshot of VM: {vm_name}", s!"Failed to take snapshot: {e}"]
               calls := [.createSnapshot vm.name snapshot_name], retval := none }

/-- Embeds `get_first_datastore` (lines 69-88) over the list of datastore
names: printed lines paired with the first datastore, if any. -/
def get_first_datastore (datastores : List String) : List String × Option String :=
  match datastores with
  | [] => (["No datastore found."], none)
  | d :: _ => ([s!"Found datastore: {d}"], some d)

/-- Message of the `IndexError` raised by `content.rootFolder.childEntity[0]`
(line 128) when no datacenter exists. -/
def indexErrorMsg : String := "IndexError: list index out of range"

/-- The environment `create_vm` runs against: the VM inventory, whether a
datacenter exists (line 128 raises otherwise), the datastore names, and the
observation trace of the task `CreateVM_Task` returns. -/
structure Env where
  inventory : List VM
  datacenterPresent : Bool
  datastores : List String
  createTaskTrace : List PollResult
deriving DecidableEq

/-- Embeds `create_vm` (lines 111-155).  Returns `none` when the busy-wait
at lines 144-145 outruns the supplied trace (the call never returns).
Mirrors the source paths: the `vm_exists` short-circuit (122-125), the
datacenter `IndexError` and the `datastore.name` `AttributeError` both
caught by the `except` at 153, the task submission, the wait, and the fact
that line 151 returns the task object even when the task failed, while the
`except` path returns `None`. -/
def create_vm (env : Env) (vm_name : String) : Option OpResult :=
  if vm_exists env.inventory vm_name then
    some { printed := [s!"VM {vm_name} already exists. Skipping creation."]
           calls := [], retval := none }
  else if env.datacenterPresent = false then
    some { printed := [s!"Error during VM creation: {indexErrorMsg}"], calls := [], retval := none }
  else
    match get_first_datastore env.datastores with
    | (dsLog, none) =>
      some { printed := dsLog ++ [s!"Error during VM creation: {attrErrorMsg}"]
             calls := [], retval := none }
    | (dsLog, some _) =>
      match waitForTask env.createTaskTrace with
      | (none, _) => none
      | (some .ok, _) =>
        some { printed := dsLog ++ [s!"Creating VM: {vm_name}", s!"VM {vm_name} created successfully."]
               calls := [.createVM vm_name], retval := some () }
      | (some (.failed m), _) =>
        some { printed := dsLog ++ [s!"Creating VM: {vm_name}", s!"VM creation failed: {m}"]
               calls := [.createVM vm_name], retval := some () }
      | (some (.transport e), _) =>
        some { printed := dsLog ++ [s!"Creating VM: {vm_name}", s!"Error during VM creation: {e}"]
               calls := [.createVM vm_name], retval := none }

/-- Kinds of event relevant to `monitor_recent_vm_events`: the two power
event classes of line 500, and everything else. -/
inductive EventKind where
  | vmPoweredOn
  | vmPoweredOff
  | other
deriving DecidableEq

/-- One event returned by `event_manager.QueryEvents`: whether
`hasattr(event, 'vm')` holds, whether `isinstance(event.vm, vim.event.VmEvent)`
holds (line 499), and which class the event itself is (line 500). -/
structure Event where
  hasVm : Bool
  vmIsVmEvent : Bool
  kind : EventKind
deriving DecidableEq

/-- The line-500 test: `isinstance(event, (VmPoweredOnEvent, VmPoweredOffEvent))`. -/
def isPowerEvent (e : Event) : Bool :=
  e.kind == .vmPoweredOn || e.kind == .vmPoweredOff

/-- Embeds the `for event in events` loop of `monitor_recent_vm_events`
(lines 495-508) with its running `count`: each matching event is printed and
counted, and the loop breaks once `count >= max_events` — checked only after
printing.  Returns the final count, i.e. the number of event blocks printed. -/
def monitorLoop : List Event → Nat → Nat → Nat
  | [], _, count => count
  | e :: rest, max_events, count =>
    if e.hasVm && e.vmIsVmEvent && isPowerEvent e then
      if count + 1 ≥ max_events then count + 1
      else monitorLoop rest max_events (count + 1)
    else monitorLoop rest max_events count

/-- Embeds `monitor_recent_vm_events` (lines 478-513): the number of VM
power event blocks printed for the given event list and `max_events`. -/
def monitor_recent_vm_events (events : List Event) (max_events : Nat) : Nat :=
  monitorLoop events max_events 0

/-- A trajectory that is `Pending` at observation 0 and `Succeeded` from
observation 1 on; used as a concrete valid trajectory. -/
def trajW : Nat → TaskState := fun i => if i = 0 then .pending else .success

/-- A VM that is already powered on and raises on nothing. -/
def vmOnW : VM := { name := "VM1", powerState := .poweredOn }

/-- An environment whose inventory already contains `VM1`. -/
def envW : Env :=
  { inventory := [{ name := "VM1", powerState := .poweredOff }]
    datacenterPresent := true
    datastores := ["DS1"]
    createTaskTrace := [.state .success, .state .success] }

/-- A well-formed powered-on event, as line 499-500 would accept it. -/
def eventOn : Event := { hasVm := true, vmIsVmEvent := true, kind := .vmPoweredOn }

/-- A powered-off VM whose `PowerOn()` call raises: the "operation failed"
scenario of `control_vm_power`. -/
def vmBoomW : VM := { name := "VM1", powerState := .poweredOff, powerOnRaises := some "boom" }

/-! ## Helper lemmas -/

theorem pollCount_cons_poll (r : PollResult) (evs : List WaitEvent) :
    pollCount (.poll r :: evs) = pollCount evs + 1 := by
  simp [pollCount, List.countP_cons, WaitEvent.isPoll]

theorem pollCount_append (a b : List WaitEvent) :
    pollCount (a ++ b) = pollCount a + pollCount b := by
  simp [pollCount, List.countP_append]

theorem pollCount_replicate_pending (n : Nat) :
    List.countP WaitEvent.isPoll
      (List.replicate n (WaitEvent.poll (PollResult.state TaskState.pending))) = n := by
  induction n with
  | zero => rfl
  | succ k ih => simp [List.replicate_succ, List.countP_cons, WaitEvent.isPoll, ih]

theorem sleepCount_cons_poll (r : PollResult) (evs : List WaitEvent) :
    sleepCount (.poll r :: evs) = sleepCount evs := by
  simp [sleepCount, List.countP_cons, WaitEvent.isSleep]

/-- Prefixing the trace with `n` pending observations makes the waiter spin
through them: same outcome, `n` extra polls in front. -/
theorem waitForTask_replicate_pending (n : Nat) (t : List PollResult) :
    waitForTask (List.replicate n (.state .pending) ++ t) =
      ((waitForTask t).1, List.replicate n (.poll (.state .pending)) ++ (waitForTask t).2) := by
  induction n with
  | zero => simp
  | succ k ih => simp [List.replicate_succ, waitForTask, ih]

theorem sleepCount_readErrorMsg (t : List PollResult) :
    sleepCount (readErrorMsg t).2 = 0 := by
  cases t with
  | nil => rfl
  | cons hd rest =>
    cases hd with
    | exn e => rfl
    | state s => cases s <;> rfl

theorem sleepCount_checkSuccess (t : List PollResult) :
    sleepCount (checkSuccess t).2 = 0 := by
  cases t with
  | nil => rfl
  | cons hd rest =>
    cases hd with
    | exn e => rfl
    | state s =>
      by_cases h : s = TaskState.success
      · subst h; rfl
      · simp [checkSuccess, h, sleepCount_cons_poll, sleepCount_readErrorMsg]

theorem sleepCount_waitForTask (t : List PollResult) :
    sleepCount (waitForTask t).2 = 0 := by
  induction t with
  | nil => rfl
  | cons hd rest ih =>
    cases hd with
    | exn e => rfl
    | state s =>
      by_cases h : s = TaskState.pending
      · simp [waitForTask, h, sleepCount_cons_poll, ih]
      · simp [waitForTask, h, sleepCount_cons_poll, sleepCount_checkSuccess]

theorem monitorLoop_le (events : List Event) (max_events count : Nat)
    (h : count < max_events) :
    monitorLoop events max_events count ≤ max_events := by
  induction events generalizing count with
  | nil => simpa [monitorLoop] using Nat.le_of_lt h
  | cons e rest ih =>
    unfold monitorLoop
    split
    · split
      · omega
      · exact ih _ (by omega)
    · exact ih _ h

/-! ## Claim theorems -/

/-- Claim C1, counterexample.  The claim says the wait reports success
immediately after the poll that observed `Succeeded`, with no further
polls.  On a task whose very first observation is `Succeeded`, the source
performs a second fetch of `task.info.state` (line 147, the success check)
after the loop-exiting one: 2 polls, not 1. -/
theorem c1_counterexample :
    (waitForTask [.state .success, .state .success]).1 = some .ok ∧
    pollCount (waitForTask [.state .success, .state .success]).2 = 2 ∧
    ¬ pollCount (waitForTask [.state .success, .state .success]).2 = 1 := by
  decide

/-- Claim C1, amended.  For every run of zero or more `Pending` observations
followed by a persistent `Succeeded`, the wait returns `Ok` exactly once,
after the loop poll that observed `Succeeded` plus exactly one further
confirming poll (line 147): `n + 2` polls in total, touching nothing beyond
them (`rest` is arbitrary). -/
theorem c1_ok_after_confirming_poll (n : Nat) (rest : List PollResult) :
    (waitForTask (List.replicate n (.state .pending) ++
        .state .success :: .state .success :: rest)).1 = some .ok ∧
    pollCount (waitForTask (List.replicate n (.state .pending) ++
        .state .success :: .state .success :: rest)).2 = n + 2 := by
  rw [waitForTask_replicate_pending]
  constructor
  · simp [waitForTask, checkSuccess]
  · simp [waitForTask, checkSuccess, pollCount, List.countP_cons, WaitEvent.isPoll,
      pollCount_replicate_pending]

/-- Claim C2.  For every run of zero or more `Pending` observations followed
by a persistent `Failed(msg)`, the wait reports the failure with exactly the
platform-supplied message, unmodified (the message the fetch of
`task.info.error.msg` returns). -/
theorem c2_err_reason_verbatim (n : Nat) (msg : String) (rest : List PollResult) :
    (waitForTask (List.replicate n (.state .pending) ++
        .state (.error msg) :: .state (.error msg) :: .state (.error msg) :: rest)).1 =
      some (.failed msg) := by
  rw [waitForTask_replicate_pending]
  simp [waitForTask, checkSuccess, readErrorMsg]

/-- Claim C3.  If the state query raises a transport error on poll `k + 1`
(after `k` pending observations), the wait surfaces exactly that error at
once: `k + 1` polls, nothing of the rest of the trace touched, no retry. -/
theorem c3_transport_error_stops_polling (k : Nat) (e : String) (rest : List PollResult) :
    (waitForTask (List.replicate k (.state .pending) ++ .exn e :: rest)).1 =
      some (.transport e) ∧
    pollCount (waitForTask (List.replicate k (.state .pending) ++ .exn e :: rest)).2 = k + 1 := by
  rw [waitForTask_replicate_pending]
  constructor
  · simp [waitForTask]
  · simp [waitForTask, pollCount, List.countP_cons, WaitEvent.isPoll,
      pollCount_replicate_pending]

/-- Claim C4, counterexample.  With a hypothetical budget of 2 polls and a
run of 4 `Pending` observations, the claim demands the wait stop within the
budget and return a timeout error; the source wait consumes all 4
observations (2 < 4, polling past any such budget) and produces no result at
all — its outcome type has no timeout variant. -/
theorem c4_counterexample :
    (waitForTask (List.replicate 4 (.state .pending))).1 = none ∧
    pollCount (waitForTask (List.replicate 4 (.state .pending))).2 = 4 ∧ 2 < 4 := by
  decide

/-- Claim C4, amended.  The source configures no maximum wait duration and
has no timeout outcome: on a run observing only `Pending`, the wait consumes
every available observation (`n` polls for any `n`) and never returns. -/
theorem c4_no_timeout_unbounded_polling (n : Nat) :
    (waitForTask (List.replicate n (.state .pending))).1 = none ∧
    pollCount (waitForTask (List.replicate n (.state .pending))).2 = n := by
  have h := waitForTask_replicate_pending n []
  rw [List.append_nil] at h
  rw [h]
  constructor
  · rfl
  · simp [waitForTask, pollCount, pollCount_replicate_pending]

/-- Claim C5.  The claim (and spec sections 5 and 8) says the waiter sleeps
between every two consecutive polls.  The loop body of the source (line 145
and its five clones) is a bare `continue`: on every trace the wait performs
zero sleeps, and on the spec example `Pending, Pending, Succeeded` it
performs 4 consecutive polls with no sleep between any two. -/
theorem c5_busy_wait_never_sleeps :
    (∀ t : List PollResult, sleepCount (waitForTask t).2 = 0) ∧
    pollCount (waitForTask
      [.state .pending, .state .pending, .state .success, .state .success]).2 = 4 ∧
    (waitForTask
      [.state .pending, .state .pending, .state .success, .state .success]).1 = some .ok :=
  ⟨sleepCount_waitForTask, by decide, by decide⟩

/-- Claim C6.  On the platform transition model of the spec, once a task is
observed terminal, every later observation reports the same state: terminal
states never transition, and polling an already-terminal task never changes
the reported state. -/
theorem c6_terminal_state_persists (traj : Nat → TaskState) (h : ValidTrajectory traj)
    (k : Nat) (hk : isTerminal (traj k) = true) :
    ∀ m, k ≤ m → traj m = traj k := by
  have key : ∀ d, traj (k + d) = traj k := by
    intro d
    induction d with
    | zero => rfl
    | succ i ih =>
      have hstep := h (k + i)
      rw [ih] at hstep
      cases hs : traj k with
      | pending => rw [hs] at hk; simp [isTerminal] at hk
      | success => rw [hs] at hstep; simpa [taskStepOk] using hstep
      | error m => rw [hs] at hstep; simpa [taskStepOk] using hstep
  intro m hm
  obtain ⟨d, rfl⟩ := Nat.exists_eq_add_of_le hm
  exact key d

/-- Claim C6, witness: a concrete valid trajectory, terminal from
observation 1 on; observation 3 reports the same state as observation 1. -/
theorem c6_witness : trajW 3 = trajW 1 :=
  c6_terminal_state_persists trajW (fun i => by cases i <;> rfl) 1 rfl 3 (by decide)

/-- Claim C7.  In `control_vm_power` and `take_snapshot`, the "VM not
found" outcome and the "operation failed" outcome are indistinguishable by
return value: both functions return `None` on every path that returns, the
two outcomes differing only in what is printed (shown on a concrete pair of
runs of `control_vm_power`). -/
theorem c7_not_found_and_failure_indistinguishable :
    (∀ inv vm_name action, (control_vm_power inv vm_name action).retval = none) ∧
    (∀ inv vm_name snap r, take_snapshot inv vm_name snap = some r → r.retval = none) ∧
    (control_vm_power [] "VM1" .POWER_ON).retval =
      (control_vm_power [vmBoomW] "VM1" .POWER_ON).retval ∧
    (control_vm_power [] "VM1" .POWER_ON).printed ≠
      (control_vm_power [vmBoomW] "VM1" .POWER_ON).printed := by
  refine ⟨?_, ?_, by decide, by decide⟩
  · intro inv vm_name action
    unfold control_vm_power
    repeat' split
    all_goals rfl
  · intro inv vm_name snap r h
    unfold take_snapshot at h
    repeat' split at h
    all_goals first
      | exact Option.noConfusion h
      | (injection h with h2; rw [← h2])

/-- Claim C7, witness: on concrete runs the not-found path of
`control_vm_power` and the not-found path of `take_snapshot` both return
`None`. -/
theorem c7_witness :
    (control_vm_power [] "VM1" .POWER_ON).retval = none ∧
    (OpResult.mk ["VM VM1 not found."] [] none).retval = none :=
  ⟨c7_not_found_and_failure_indistinguishable.1 [] "VM1" .POWER_ON,
   c7_not_found_and_failure_indistinguishable.2.1 [] "VM1" "Snap1"
     (OpResult.mk ["VM VM1 not found."] [] none) (by decide)⟩

/-- Claim C8.  When a VM of the requested name already exists
(`vm_exists` is true), `create_vm` only prints the skip message, returns
`None`, and issues no platform call at all — in particular no creation
task — so the inventory is untouched. -/
theorem c8_create_vm_skips_existing (env : Env) (vm_name : String)
    (h : vm_exists env.inventory vm_name = true) :
    create_vm env vm_name =
      some { printed := [s!"VM {vm_name} already exists. Skipping creation."]
             calls := [], retval := none } := by
  unfold create_vm
  simp [h]

/-- Claim C8, witness: on an inventory already containing `VM1`,
`create_vm` issues no calls and returns `None`. -/
theorem c8_witness :
    (create_vm envW "VM1").map OpResult.calls = some [] ∧
    (create_vm envW "VM1").map OpResult.retval = some none := by
  rw [c8_create_vm_skips_existing envW "VM1" (by decide)]
  exact ⟨rfl, rfl⟩

/-- Claim C9, counterexample.  With `max_events = 0` and one well-formed
power event, the source prints 1 event block — more than `max_events` —
because the `count >= max_events` break is checked only after printing. -/
theorem c9_counterexample :
    monitor_recent_vm_events [eventOn] 0 = 1 ∧
    ¬ monitor_recent_vm_events [eventOn] 0 ≤ 0 := by
  decide

/-- Claim C9, amended.  For every `max_events ≥ 1`, at most `max_events`
VM power event blocks are printed: the loop breaks as soon as the count
reaches `max_events`. -/
theorem c9_at_most_max_events (events : List Event) (max_events : Nat)
    (h : 1 ≤ max_events) :
    monitor_recent_vm_events events max_events ≤ max_events :=
  monitorLoop_le events max_events 0 h

/-- Claim C9, witness: with `max_events = 1`, at most one block is printed. -/
theorem c9_witness : monitor_recent_vm_events [eventOn] 1 ≤ 1 :=
  c9_at_most_max_events [eventOn] 1 (by decide)

/-- Claim C10.  When the VM found in inventory is already powered on,
`POWER_ON` issues no platform call (and symmetrically `POWER_OFF` on an
already powered-off VM): the power state is left untouched. -/
theorem c10_no_redundant_power_call (inv : List VM) (vm_name : String) (vm : VM)
    (h : findVM inv vm_name = some vm) :
    (vm.powerState = .poweredOn → (control_vm_power inv vm_name .POWER_ON).calls = []) ∧
    (vm.powerState = .poweredOff → (control_vm_power inv vm_name .POWER_OFF).calls = []) := by
  constructor <;> intro hp <;> unfold control_vm_power <;> rw [h] <;> simp [hp]

/-- Claim C10, witness: powering on the already-on `vmOnW` issues no call. -/
theorem c10_witness : (control_vm_power [vmOnW] "VM1" .POWER_ON).calls = [] :=
  (c10_no_redundant_power_call [vmOnW] "VM1" vmOnW (by decide)).1 rfl

end VmwarePyvmomi
